import Mathlib

/-!
# Verification of the Grist map widget (src/page.js)

Shallow embedding of the record-to-map rendering engine of `src/page.js`:
the coordinate-mode feature builder inside `updateMap`, the geocoding
`scan` loop, the GeoJSON point extractor `extractPointsFromGeoJSON`, and
the selection functions `selectMaker` / `selectGeoJSONFeature` /
`selectOnMap`.

Modelling conventions:
* Grist cell values are modelled by `CellValue` (number / string / null).
  JavaScript numbers are modelled as rationals; IEEE-754 rounding is not
  modelled (the literals 0.01, 0.3, 0.6 are exact rationals here).
* JavaScript `null` and `undefined` are both modelled as absence
  (`CellValue.null`, or `Option.none` for typed fields); the code under
  verification never distinguishes them (it only uses truthiness and
  loose equality on Text cells).
* Text columns (Address, GeocodedAddress) are modelled as
  `Option String`; Numeric columns (Longitude, Latitude) as `Option ℚ`.
-/

/-- A Grist cell value as seen by the widget: a number, a string, or
null/undefined/absent. -/
inductive CellValue where
  | num (q : ℚ)
  | str (s : String)
  | null
deriving DecidableEq

/-- Marker icon: the green `selectedIcon` or `L.Icon.Default` (page.js:46-55). -/
inductive IconT where
  | default
  | selected
deriving DecidableEq

/-- `String(v) === "..."`, the mid-geocoding sentinel test at page.js:815.
JavaScript stringification of a number is a sign, digits, a decimal point
or exponent (or `NaN`/`Infinity`) and never equals `"..."`; `String(null)`
is `"null"`.  Only a string cell can therefore equal the sentinel. -/
def isSentinelStr : CellValue → Bool
  | .str s => s == "..."
  | _ => false

/-- `Math.abs(v) < 0.01`, the origin filter test at page.js:818.
`Math.abs(null)` is `0` (ToNumber coercion), so a null cell passes the
test; `Math.abs` of a non-numeric string is `NaN` and every comparison
with `NaN` is false.  (Numeric strings, which JavaScript would coerce,
are not modelled: the Longitude/Latitude columns are Numeric and the only
string payload the code contemplates is the sentinel, caught above.) -/
def jsAbs (q : ℚ) : ℚ := if q < 0 then -q else q

def absLtHundredth : CellValue → Bool
  | .num q => jsAbs q < 1 / 100
  | .null => true
  | .str _ => false

/-- One row of the main table as consumed by the coordinate-mode branch of
`updateMap` (page.js:812-837), after `getInfo` has extracted
id/name/lng/lat. -/
structure CoordRecord where
  id : ℕ
  name : String
  lng : CellValue
  lat : CellValue
deriving DecidableEq

/-- A rendered point marker (page.js:825-830): position (the raw lat/lng
cells handed to `L.LatLng`), title, owning row id, icon and pane. -/
structure Marker where
  ptLat : CellValue
  ptLng : CellValue
  title : String
  id : ℕ
  icon : IconT
  pane : String
deriving DecidableEq

/-- The skip test of the coordinate-mode loop: the record is skipped when
its longitude stringifies to the `"..."` sentinel (page.js:815) or both
coordinates are within 0.01 of zero (page.js:818). -/
def skipRecord (r : CoordRecord) : Bool :=
  isSentinelStr r.lng || (absLtHundredth r.lat && absLtHundredth r.lng)

/-- Marker construction for one surviving record (page.js:825-830):
`icon: id == selectedRowId ? selectedIcon : defaultIcon`,
`pane: id == selectedRowId ? "selectedMarker" : "otherMarkers"`. -/
def markerOf (sel : Option ℕ) (r : CoordRecord) : Marker :=
  { ptLat := r.lat
    ptLng := r.lng
    title := r.name
    id := r.id
    icon := if some r.id == sel then IconT.selected else IconT.default
    pane := if some r.id == sel then "selectedMarker" else "otherMarkers" }

/-- Output of the coordinate-mode loop of `updateMap`: the markers added
to the cluster group, the `points` array used for bounds fitting, and the
`popups` row-id index, in construction order. -/
structure CoordBuild where
  markers : List Marker
  points : List (CellValue × CellValue)
  popups : List (ℕ × Marker)
deriving DecidableEq

/-- The coordinate-mode loop of `updateMap` (page.js:812-837): for each
record, skip on the sentinel or the origin filter, otherwise push the
point, create the marker, add it to the cluster group and index it by row
id in `popups`. -/
def buildCoordFeatures (sel : Option ℕ) : List CoordRecord → CoordBuild
  | [] => ⟨[], [], []⟩
  | r :: rs =>
    if isSentinelStr r.lng then buildCoordFeatures sel rs
    else if absLtHundredth r.lat && absLtHundredth r.lng then buildCoordFeatures sel rs
    else
      let m := markerOf sel r
      let rest := buildCoordFeatures sel rs
      ⟨m :: rest.markers, (r.lat, r.lng) :: rest.points, (r.id, m) :: rest.popups⟩

theorem buildCoordFeatures_markers (sel : Option ℕ) (data : List CoordRecord) :
    (buildCoordFeatures sel data).markers
      = (data.filter (fun r => !skipRecord r)).map (markerOf sel) := by
  induction data with
  | nil => rfl
  | cons r rs ih =>
    rw [List.filter_cons]
    by_cases h1 : isSentinelStr r.lng
    · simp [buildCoordFeatures, skipRecord, h1, ih]
    · by_cases h2 : absLtHundredth r.lat && absLtHundredth r.lng
      · simp [buildCoordFeatures, skipRecord, h1, h2, ih]
      · simp [buildCoordFeatures, skipRecord, h1, h2, ih]

theorem buildCoordFeatures_points (sel : Option ℕ) (data : List CoordRecord) :
    (buildCoordFeatures sel data).points
      = (data.filter (fun r => !skipRecord r)).map (fun r => (r.lat, r.lng)) := by
  induction data with
  | nil => rfl
  | cons r rs ih =>
    rw [List.filter_cons]
    by_cases h1 : isSentinelStr r.lng
    · simp [buildCoordFeatures, skipRecord, h1, ih]
    · by_cases h2 : absLtHundredth r.lat && absLtHundredth r.lng
      · simp [buildCoordFeatures, skipRecord, h1, h2, ih]
      · simp [buildCoordFeatures, skipRecord, h1, h2, ih]

theorem buildCoordFeatures_popups (sel : Option ℕ) (data : List CoordRecord) :
    (buildCoordFeatures sel data).popups
      = (data.filter (fun r => !skipRecord r)).map (fun r => (r.id, markerOf sel r)) := by
  induction data with
  | nil => rfl
  | cons r rs ih =>
    rw [List.filter_cons]
    by_cases h1 : isSentinelStr r.lng
    · simp [buildCoordFeatures, skipRecord, h1, ih]
    · by_cases h2 : absLtHundredth r.lat && absLtHundredth r.lng
      · simp [buildCoordFeatures, skipRecord, h1, h2, ih]
      · simp [buildCoordFeatures, skipRecord, h1, h2, ih]

theorem filter_beq_nil {α : Type} (f : α → ℕ) (k : ℕ) :
    ∀ (l : List α), (∀ x ∈ l, f x ≠ k) → l.filter (fun x => f x == k) = [] := by
  intro l
  induction l with
  | nil => intro _; rfl
  | cons b l ih =>
    intro h
    rw [List.filter_cons]
    have hb : f b ≠ k := h b (List.mem_cons_self b l)
    simp only [beq_iff_eq, hb, if_false]
    exact ih (fun x hx => h x (List.mem_cons_of_mem b hx))

theorem filter_key_single {α : Type} (f : α → ℕ) :
    ∀ (l : List α) (a : α), (l.map f).Nodup → a ∈ l →
      l.filter (fun x => f x == f a) = [a] := by
  intro l
  induction l with
  | nil => intro a _ ha; cases ha
  | cons b l ih =>
    intro a hnd ha
    rw [List.map_cons, List.nodup_cons] at hnd
    rw [List.filter_cons]
    rcases List.mem_cons.mp ha with rfl | ha2
    · simp only [beq_self_eq_true, if_true]
      have hnil : l.filter (fun x => f x == f a) = [] := by
        refine filter_beq_nil f (f a) l ?_
        intro x hx hfx
        exact hnd.1 (hfx ▸ List.mem_map_of_mem f hx)
      rw [hnil]
    · have hne : f b ≠ f a := by
        intro he
        exact hnd.1 (he ▸ List.mem_map_of_mem f ha2)
      simp only [beq_iff_eq, hne, if_false]
      exact ih a hnd.2 ha2

theorem markers_filter_by_id (sel : Option ℕ) (k : ℕ) :
    ∀ (l : List CoordRecord),
      (l.map (markerOf sel)).filter (fun m => m.id == k)
        = (l.filter (fun r => r.id == k)).map (markerOf sel) := by
  intro l
  induction l with
  | nil => rfl
  | cons b l ih =>
    rw [List.map_cons, List.filter_cons, List.filter_cons]
    by_cases h : b.id == k
    · simp [markerOf, h, ih]
    · simp [markerOf, h, ih]

/-- C1: in coordinate mode, a record whose longitude stringifies to the
`"..."` in-progress sentinel, or whose latitude and longitude are both
within 0.01 of zero, produces no marker, no `popups` entry and no bounds
point; every other record produces exactly one marker (assuming the
host-guaranteed uniqueness of row ids within the batch).  The first three
conjuncts characterise the loop output as a filter-and-map of the input;
the last two give the per-record consequences. -/
theorem coordModeFilterInvariant (sel : Option ℕ) (data : List CoordRecord)
    (hnd : (data.map CoordRecord.id).Nodup) :
    (buildCoordFeatures sel data).markers
        = (data.filter (fun r => !skipRecord r)).map (markerOf sel)
  ∧ (buildCoordFeatures sel data).points
        = (data.filter (fun r => !skipRecord r)).map (fun r => (r.lat, r.lng))
  ∧ (buildCoordFeatures sel data).popups
        = (data.filter (fun r => !skipRecord r)).map (fun r => (r.id, markerOf sel r))
  ∧ (∀ r ∈ data, skipRecord r = true →
        (∀ m ∈ (buildCoordFeatures sel data).markers, m.id ≠ r.id)
      ∧ (∀ p ∈ (buildCoordFeatures sel data).popups, p.1 ≠ r.id))
  ∧ (∀ r ∈ data, skipRecord r = false →
        ((buildCoordFeatures sel data).markers.filter (fun m => m.id == r.id)).length
          = 1) := by
  refine ⟨buildCoordFeatures_markers sel data, buildCoordFeatures_points sel data,
    buildCoordFeatures_popups sel data, ?_, ?_⟩
  · intro r hr hskip
    constructor
    · intro m hm hid
      rw [buildCoordFeatures_markers] at hm
      obtain ⟨r2, hr2, rfl⟩ := List.mem_map.mp hm
      obtain ⟨hr2mem, hr2keep⟩ := List.mem_filter.mp hr2
      have : r2 = r :=
        List.inj_on_of_nodup_map hnd hr2mem hr hid
      rw [this] at hr2keep
      rw [hskip] at hr2keep
      simp at hr2keep
    · intro p hp hid
      rw [buildCoordFeatures_popups] at hp
      obtain ⟨r2, hr2, rfl⟩ := List.mem_map.mp hp
      obtain ⟨hr2mem, hr2keep⟩ := List.mem_filter.mp hr2
      have : r2 = r :=
        List.inj_on_of_nodup_map hnd hr2mem hr hid
      rw [this] at hr2keep
      rw [hskip] at hr2keep
      simp at hr2keep
  · intro r hr hskip
    rw [buildCoordFeatures_markers, markers_filter_by_id]
    have hsub : ((data.filter (fun r => !skipRecord r)).map CoordRecord.id).Sublist
        (data.map CoordRecord.id) :=
      (List.filter_sublist data).map CoordRecord.id
    have hnd2 : ((data.filter (fun r => !skipRecord r)).map CoordRecord.id).Nodup :=
      hnd.sublist hsub
    have hmem : r ∈ data.filter (fun r => !skipRecord r) :=
      List.mem_filter.mpr ⟨hr, by rw [hskip]; rfl⟩
    have hsingle := filter_key_single CoordRecord.id
      (data.filter (fun r => !skipRecord r)) r hnd2 hmem
    rw [hsingle]
    rfl

def c1Rec1 : CoordRecord := ⟨1, "A", CellValue.num 0, CellValue.num 0⟩

def c1Rec2 : CoordRecord := ⟨2, "B", CellValue.str "...", CellValue.num 5⟩

def c1Rec3 : CoordRecord := ⟨3, "C", CellValue.num 10, CellValue.num 20⟩

def c1Data : List CoordRecord := [c1Rec1, c1Rec2, c1Rec3]

/-- Witness for C1 at the scenario batch of the specification: the
origin record and the sentinel record produce nothing, the remaining
record produces exactly one marker. -/
theorem coordModeFilterInvariant_witness :
    ((c1Data.map CoordRecord.id).Nodup)
  ∧ ((buildCoordFeatures (some 3) c1Data).markers.filter
        (fun m => m.id == c1Rec3.id)).length = 1
  ∧ (∀ m ∈ (buildCoordFeatures (some 3) c1Data).markers, m.id ≠ c1Rec1.id) :=
  ⟨by simp [c1Data, c1Rec1, c1Rec2, c1Rec3],
   (coordModeFilterInvariant (some 3) c1Data
       (by simp [c1Data, c1Rec1, c1Rec2, c1Rec3])).2.2.2.2 c1Rec3
     (by simp [c1Data])
     (by norm_num [skipRecord, c1Rec3, isSentinelStr, absLtHundredth, jsAbs]),
   ((coordModeFilterInvariant (some 3) c1Data
       (by simp [c1Data, c1Rec1, c1Rec2, c1Rec3])).2.2.2.1 c1Rec1
     (by simp [c1Data])
     (by norm_num [skipRecord, c1Rec1, isSentinelStr, absLtHundredth, jsAbs])).1⟩

/-- A geocoding result: `v.center` of the first geocoder hit, a Leaflet
`LatLng` (page.js:118-127). -/
structure GeoPoint where
  lat : ℚ
  lng : ℚ
deriving DecidableEq

/-- One row as consumed by `scan` (page.js:140-178).  `geocode` is
`none` when the Geocode role is not a key of the record at all
(`!(Geocode in record)`), and `some v` when the key is present with cell
value `v` (a Bool column: true/false/null). -/
structure ScanRecord where
  id : ℕ
  geocode : Option (Option Bool)
  address : Option String
  geocodedAddress : Option String
  lng : Option ℚ
  lat : Option ℚ
  geojson : Option String
deriving DecidableEq

/-- The externally visible actions of one scan, in order: a call to the
geocode client (page.js:168), one bulk `UpdateRecord` write-back with the
new Longitude/Latitude and, when the GeocodedAddress role is mapped, the
submitted address (page.js:170-174), and the fixed rate-limit delay
(page.js:175). -/
inductive ScanAction where
  | geocodeCall (address : String)
  | update (rowId : ℕ) (lng : Option ℚ) (lat : Option ℚ) (cachedAddress : Option String)
  | delayStep
deriving DecidableEq

/-- JS truthiness of a Bool cell (`record[Geocode]`): true is truthy,
false and null/undefined are falsy. -/
def truthyFlag : Option Bool → Bool
  | some b => b
  | none => false

/-- JS truthiness of a Text cell: a non-empty string is truthy, the empty
string and null/undefined are falsy. -/
def truthyText : Option String → Bool
  | some s => s != ""
  | none => false

/-- JS truthiness of a Numeric cell (`record[Longitude]`): a non-zero
number is truthy, zero and null/undefined are falsy. -/
def truthyNum : Option ℚ → Bool
  | some q => q != 0
  | none => false

/-- JS loose equality `record[GeocodedAddress] == record.Address` on two
Text cells: string equality on two strings; null and undefined are
loosely equal to each other and to nothing else relevant here. -/
def looseEqText : Option String → Option String → Bool
  | some a, some b => a == b
  | none, none => true
  | _, _ => false

/-- page.js:160-162: `record[Longitude] = null; record[Latitude] = null;
record[GeoJSON] = null;` — the in-memory clearing that forces
re-geocoding when the cached address differs. -/
def clearCachedCoords (r : ScanRecord) : ScanRecord :=
  { r with lng := none, lat := none, geojson := none }

/-- page.js:166-176: `if (address && !record[Longitude])`, then the
geocode call, the atomic write-back and the rate-limit delay.  The
geocode client is a function to `Except Unit (Option GeoPoint)`: `.error`
models a thrown/rejected call, which aborts the enclosing `scan` (there
is no try/catch inside the loop).  Returns the (locally mutated) record,
the emitted actions, and whether the step completed without throwing. -/
def geocodeIfNeeded (geo : String → Except Unit (Option GeoPoint))
    (cacheMapped : Bool) (r : ScanRecord) (address : Option String) :
    ScanRecord × List ScanAction × Bool :=
  match address with
  | none => (r, [], true)
  | some a =>
    if a != "" && !truthyNum r.lng then
      match geo a with
      | Except.error _ => (r, [ScanAction.geocodeCall a], false)
      | Except.ok result =>
        (r, [ScanAction.geocodeCall a,
             ScanAction.update r.id (result.map GeoPoint.lng) (result.map GeoPoint.lat)
               (if cacheMapped then some a else none),
             ScanAction.delayStep], true)
    else (r, [], true)

/-- The body of the `scan` loop for one record that passed the Geocode
flag tests (page.js:147-176): read the address, apply the caching policy
(skip on cache hit, clear coordinates on cache mismatch), then geocode if
the address is non-empty and Longitude is empty. -/
def recordStep (geo : String → Except Unit (Option GeoPoint))
    (cacheMapped : Bool) (r : ScanRecord) : ScanRecord × List ScanAction × Bool :=
  if truthyText r.geocodedAddress then
    if looseEqText r.geocodedAddress r.address then (r, [], true)
    else geocodeIfNeeded geo cacheMapped (clearCachedCoords r) r.address
  else geocodeIfNeeded geo cacheMapped r r.address

/-- The `for (const record of records)` loop of `scan` (page.js:142-177):
`break` when the Geocode role is not a key of the record, `continue` when
it is falsy, otherwise run the per-record step; a throw anywhere in the
step aborts the whole loop (the only catch is in `scanOnNeed`, which
merely resets the in-flight flag).  Returns the actions emitted, and
whether the scan ran to completion. -/
def scanRecords (geo : String → Except Unit (Option GeoPoint))
    (cacheMapped : Bool) : List ScanRecord → List ScanAction × Bool
  | [] => ([], true)
  | r :: rs =>
    match r.geocode with
    | none => ([], true)
    | some v =>
      if truthyFlag v then
        match recordStep geo cacheMapped r with
        | (_, acts, true) =>
          let rest := scanRecords geo cacheMapped rs
          (acts ++ rest.1, rest.2)
        | (_, acts, false) => (acts, false)
      else scanRecords geo cacheMapped rs

/-- `scan` itself (page.js:140-178): `if (!writeAccess) return;` then the
record loop. -/
def scan (geo : String → Except Unit (Option GeoPoint))
    (cacheMapped writeAccess : Bool) (records : List ScanRecord) :
    List ScanAction × Bool :=
  if writeAccess then scanRecords geo cacheMapped records else ([], true)

theorem geocodeIfNeeded_fst (geo : String → Except Unit (Option GeoPoint))
    (cacheMapped : Bool) (r : ScanRecord) (address : Option String) :
    (geocodeIfNeeded geo cacheMapped r address).1 = r := by
  rw [geocodeIfNeeded.eq_def]
  match address with
  | none => rfl
  | some a =>
    by_cases h : a != "" && !truthyNum r.lng
    · simp only [h, if_true]
      match geo a with
      | Except.error _ => rfl
      | Except.ok result => rfl
    · simp [h]

/-- C2: a record whose GeocodedAddress cache value is a non-empty string
equal to its current Address is skipped: its step calls no geocode client
function, issues no write-back, and leaves the record untouched; the scan
simply continues with the remaining records. -/
theorem scanCacheHitSkips (geo : String → Except Unit (Option GeoPoint))
    (cacheMapped : Bool) (r : ScanRecord) (rs : List ScanRecord) (s : String)
    (hga : r.geocodedAddress = some s) (hne : s ≠ "") (haddr : r.address = some s) :
    recordStep geo cacheMapped r = (r, [], true)
  ∧ (∀ v, r.geocode = some v → truthyFlag v = true →
      scanRecords geo cacheMapped (r :: rs) = scanRecords geo cacheMapped rs) := by
  have hstep : recordStep geo cacheMapped r = (r, [], true) := by
    rw [recordStep, hga, haddr]
    simp [truthyText, looseEqText, hne]
  refine ⟨hstep, ?_⟩
  intro v hv htv
  rw [scanRecords, hv]
  simp [htv, hstep, scanRecords]

def c2Rec : ScanRecord :=
  ⟨7, some (some true), some "10 Main St", some "10 Main St", some 5, some 6, none⟩

def c2Other : ScanRecord :=
  ⟨8, some (some true), some "1 Side St", none, none, none, none⟩

/-- Witness for C2: a concrete cache-hit record is skipped and the scan
of the batch equals the scan of the rest of the batch. -/
theorem scanCacheHitSkips_witness :
    recordStep (fun _ => Except.ok none) true c2Rec = (c2Rec, [], true)
  ∧ scanRecords (fun _ => Except.ok none) true [c2Rec, c2Other]
      = scanRecords (fun _ => Except.ok none) true [c2Other] :=
  ⟨(scanCacheHitSkips (fun _ => Except.ok none) true c2Rec [c2Other] "10 Main St"
      rfl (by decide) rfl).1,
   (scanCacheHitSkips (fun _ => Except.ok none) true c2Rec [c2Other] "10 Main St"
      rfl (by decide) rfl).2 (some true) rfl rfl⟩

/-- C3: a record whose GeocodedAddress cache value is a non-empty string
that differs (under JS loose equality) from its current Address has its
Longitude, Latitude and GeoJSON fields set to null before anything else;
consequently, whenever its Address is a non-empty string, the step's
first action is a geocode call — re-resolution proceeds even though the
record may have had coordinates. -/
theorem scanCacheMissClears (geo : String → Except Unit (Option GeoPoint))
    (cacheMapped : Bool) (r : ScanRecord) (s : String)
    (hga : r.geocodedAddress = some s) (hne : s ≠ "")
    (hdiff : looseEqText r.geocodedAddress r.address = false) :
    (recordStep geo cacheMapped r).1 = clearCachedCoords r
  ∧ (recordStep geo cacheMapped r).1.lng = none
  ∧ (recordStep geo cacheMapped r).1.lat = none
  ∧ (recordStep geo cacheMapped r).1.geojson = none
  ∧ (∀ a, r.address = some a → a ≠ "" →
      (recordStep geo cacheMapped r).2.1.head? = some (ScanAction.geocodeCall a)) := by
  have hstep : recordStep geo cacheMapped r
      = geocodeIfNeeded geo cacheMapped (clearCachedCoords r) r.address := by
    rw [recordStep, hga]
    rw [hga] at hdiff
    simp [truthyText, hne, hdiff]
  have hfst : (recordStep geo cacheMapped r).1 = clearCachedCoords r := by
    rw [hstep, geocodeIfNeeded_fst]
  refine ⟨hfst, by rw [hfst]; rfl, by rw [hfst]; rfl, by rw [hfst]; rfl, ?_⟩
  intro a haddr hnea
  rw [hstep, haddr, geocodeIfNeeded]
  have hlng : truthyNum (clearCachedCoords r).lng = false := rfl
  simp only [hlng, Bool.not_false, Bool.and_true, bne_iff_ne, ne_eq, hnea,
    not_false_eq_true, if_true]
  match geo a with
  | Except.error _ => rfl
  | Except.ok result => rfl

def c3Rec : ScanRecord :=
  ⟨9, some (some true), some "2 New Rd", some "1 Old Rd", some 5, some 6, some "{}"⟩

/-- Witness for C3: a concrete cache-miss record is cleared and its step
starts with a geocode call for the new address despite the stale
coordinates. -/
theorem scanCacheMissClears_witness :
    (recordStep (fun _ => Except.ok none) true c3Rec).1.lng = none
  ∧ (recordStep (fun _ => Except.ok none) true c3Rec).1.geojson = none
  ∧ (recordStep (fun _ => Except.ok none) true c3Rec).2.1.head?
      = some (ScanAction.geocodeCall "2 New Rd") :=
  ⟨(scanCacheMissClears (fun _ => Except.ok none) true c3Rec "1 Old Rd"
      rfl (by decide) (by decide)).2.1,
   (scanCacheMissClears (fun _ => Except.ok none) true c3Rec "1 Old Rd"
      rfl (by decide) (by decide)).2.2.2.1,
   (scanCacheMissClears (fun _ => Except.ok none) true c3Rec "1 Old Rd"
      rfl (by decide) (by decide)).2.2.2.2 "2 New Rd" rfl (by decide)⟩

/-- C4: a record without the Geocode key stops the scan for the whole
remainder of the batch (no action is emitted for it or for any later
record), while a record whose Geocode value is merely falsy is skipped
and the scan continues with the next record. -/
theorem scanGeocodeRoleGate (geo : String → Except Unit (Option GeoPoint))
    (cacheMapped : Bool) (r : ScanRecord) (rs : List ScanRecord) :
    (r.geocode = none → scanRecords geo cacheMapped (r :: rs) = ([], true))
  ∧ (∀ v, r.geocode = some v → truthyFlag v = false →
      scanRecords geo cacheMapped (r :: rs) = scanRecords geo cacheMapped rs) := by
  constructor
  · intro h
    rw [scanRecords, h]
  · intro v hv htv
    rw [scanRecords, hv]
    simp [htv]

def c4RecNoRole : ScanRecord := ⟨10, none, some "3 Far Ln", none, none, none, none⟩

def c4RecFlagOff : ScanRecord :=
  ⟨11, some (some false), some "4 Off St", none, none, none, none⟩

/-- Witness for C4: a record missing the Geocode key terminates a
concrete batch (the geocodable record behind it is never visited), while
a flag-off record is skipped and the rest is still scanned. -/
theorem scanGeocodeRoleGate_witness :
    scanRecords (fun _ => Except.ok none) true [c4RecNoRole, c2Other] = ([], true)
  ∧ scanRecords (fun _ => Except.ok none) true [c4RecFlagOff, c2Other]
      = scanRecords (fun _ => Except.ok none) true [c2Other] :=
  ⟨(scanGeocodeRoleGate (fun _ => Except.ok none) true c4RecNoRole [c2Other]).1 rfl,
   (scanGeocodeRoleGate (fun _ => Except.ok none) true c4RecFlagOff [c2Other]).2
     (some false) rfl rfl⟩

def c5Geo : String → Except Unit (Option GeoPoint) :=
  fun a => if a == "bad" then Except.error () else Except.ok (some ⟨1, 2⟩)

def c5RecBad : ScanRecord := ⟨1, some (some true), some "bad", none, none, none, none⟩

def c5RecGood : ScanRecord := ⟨2, some (some true), some "good", none, none, none, none⟩

/-- C5 counterexample: with a geocode client that throws on the first
record's address, the scan of `[c5RecBad, c5RecGood]` stops at the thrown
call and emits nothing for the second record — although the second record
alone would be geocoded and written back.  An error on one record
therefore does prevent later records from being examined and geocoded
(there is no try/catch inside the loop; only `scanOnNeed` catches, and
merely resets the in-flight flag). -/
theorem scanErrorIsolation_counterexample :
    scanRecords c5Geo true [c5RecBad, c5RecGood]
      = ([ScanAction.geocodeCall "bad"], false)
  ∧ scanRecords c5Geo true [c5RecGood]
      = ([ScanAction.geocodeCall "good",
          ScanAction.update 2 (some 2) (some 1) (some "good"),
          ScanAction.delayStep], true)
  ∧ ([ScanAction.geocodeCall "bad"], false)
      ≠ (([ScanAction.geocodeCall "bad", ScanAction.geocodeCall "good",
           ScanAction.update 2 (some 2) (some 1) (some "good"),
           ScanAction.delayStep], true) : List ScanAction × Bool) := by
  refine ⟨rfl, rfl, ?_⟩
  intro h
  exact absurd (congrArg Prod.snd h) (by decide)

/-- C5 amended: an error during one record's resolution aborts the scan
of the remaining records.  For any eligible record whose geocode call
throws, the scan of the batch stops right after the failed call,
independently of the records that follow; the failure is reported
(`false`) so that `scanOnNeed`'s catch can reset the in-flight flag. -/
theorem scanErrorAbortsRemainder (geo : String → Except Unit (Option GeoPoint))
    (cacheMapped : Bool) (r : ScanRecord) (rs : List ScanRecord) (a : String)
    (hflag : r.geocode = some (some true))
    (hca : r.geocodedAddress = none)
    (haddr : r.address = some a) (hne : a ≠ "") (hlng : r.lng = none)
    (herr : geo a = Except.error ()) :
    scanRecords geo cacheMapped (r :: rs) = ([ScanAction.geocodeCall a], false) := by
  have hstep : recordStep geo cacheMapped r = (r, [ScanAction.geocodeCall a], false) := by
    rw [recordStep, hca, haddr]
    simp [truthyText, geocodeIfNeeded, truthyNum, hlng, hne, herr]
  rw [scanRecords, hflag]
  simp [truthyFlag, hstep]

/-- Witness for the amended C5 at the concrete failing batch. -/
theorem scanErrorAbortsRemainder_witness :
    scanRecords c5Geo true (c5RecBad :: [c5RecGood])
      = ([ScanAction.geocodeCall "bad"], false) :=
  scanErrorAbortsRemainder c5Geo true c5RecBad [c5RecGood] "bad"
    rfl rfl rfl (by decide) rfl rfl

/-- A JSON-ish value as found in a GeoJSON `coordinates` member. -/
inductive JVal where
  | num (q : ℚ)
  | str (s : String)
  | arr (xs : List JVal)
  | null

/-- A point pushed into the `points` list: `new L.LatLng(coords[1],
coords[0])` (page.js:247). -/
structure LPoint where
  lat : ℚ
  lng : ℚ
deriving DecidableEq

/-- Depth 0 of `extractCoordinates` (page.js:245-248): index 1 and 0 of
the coordinate pair become lat/lng of an `L.LatLng`.  Leaflet's `LatLng`
constructor throws (`Invalid LatLng`) when either argument does not
coerce to a number — in particular when the value is not an array or the
index is out of range (undefined → NaN); `none` models that throw.
(JS coercion of non-numeric leaves such as `null` → 0 or numeric strings
is not modelled: such entries are treated as invalid.) -/
def latLngOfPair : JVal → Option LPoint
  | .arr xs =>
    match xs.get? 1, xs.get? 0 with
    | some (.num lat), some (.num lng) => some ⟨lat, lng⟩
    | _, _ => none
  | _ => none

/-- The `for (let i = 0; i < coords.length; i++)` loop at depth > 0
(page.js:252-254): iterate the array elements in order, descending into
each with `f`, stopping at the first element whose descent throws. -/
def stopConcat (f : JVal → List LPoint × Bool) : List JVal → List LPoint × Bool
  | [] => ([], true)
  | x :: xs =>
    match f x with
    | (ps, true) =>
      let rest := stopConcat f xs
      (ps ++ rest.1, rest.2)
    | (ps, false) => (ps, false)

/-- `extractCoordinates(coords, depth)` (page.js:244-255).  Returns the
points pushed into the enclosing `points` array, in order, and whether
the descent completed without throwing; on a throw the points pushed
before the throw are kept (the array is shared with the caller) and
nothing after the throw is pushed.  A non-array value at depth > 0 has
no numeric `length`, so the loop body never runs and nothing is pushed
(strings, which JS would index character-wise, are not modelled as
indexable). -/
def extractCoordinates : ℕ → JVal → List LPoint × Bool
  | 0, v =>
    match latLngOfPair v with
    | some p => ([p], true)
    | none => ([], false)
  | d + 1, v =>
    match v with
    | .arr xs => stopConcat (extractCoordinates d) xs
    | _ => ([], true)

theorem sizeOf_list_pos {α : Type} [SizeOf α] (l : List α) : 0 < sizeOf l := by
  cases l <;> simp_arith

/-- A (parsed) GeoJSON object as inspected by `extractPointsFromGeoJSON`
(page.js:241-291): its `type`, `coordinates`, `geometries` and `geometry`
members (each `none` when absent). -/
inductive GeoObj where
  | mk (type : Option String) (coordinates : Option JVal)
       (geometries : Option (List GeoObj)) (geometry : Option GeoObj)

/-- JS truthiness of a JSON value: `null` is falsy, a number is truthy
iff non-zero, a string iff non-empty, and an array (an object) is always
truthy — even when empty. -/
def jvTruthy : JVal → Bool
  | .null => false
  | .num q => q != 0
  | .str s => s != ""
  | .arr _ => true

/-- The `depthMap` of page.js:269-276: geometry type → nesting depth of
its `coordinates` member. -/
def depthOfType : Option String → Option ℕ
  | some "Point" => some 0
  | some "LineString" => some 1
  | some "Polygon" => some 2
  | some "MultiPoint" => some 1
  | some "MultiLineString" => some 2
  | some "MultiPolygon" => some 3
  | _ => none

/-- page.js:278-285 (reached only with truthy `coordinates`): a known
`depthMap` type descends its coordinates to its depth; otherwise a
`GeometryCollection` yields the per-sub-geometry points (passed in by the
caller) and an unknown type yields no points. -/
def dispatchDepth (ty : Option String) (c : JVal)
    (collectionPoints : List LPoint) : List LPoint :=
  match depthOfType ty with
  | some d => (extractCoordinates d c).1
  | none =>
    if ty == some "GeometryCollection" then collectionPoints
    else []

mutual

/-- `extractPointsFromGeoJSON(geojson)` (page.js:241-291): return `[]`
when the argument or its `type` is falsy; unwrap a `Feature` to its
`geometry`; then process the geometry. -/
def extractPointsFromGeoJSON : Option GeoObj → List LPoint
  | none => []
  | some (GeoObj.mk ty co geoms geometry) =>
    if truthyText ty = false then []
    else if ty == some "Feature" then
      match geometry with
      | none => []
      | some g2 => pointsOfGeometry g2
    else pointsOfGeometry (GeoObj.mk ty co geoms geometry)
termination_by g => sizeOf g

/-- page.js:264-285 on the unwrapped geometry: return the points pushed
so far (`[]`) when `geometry.coordinates` is falsy — note that this early
return fires for a standard `GeometryCollection`, which has `geometries`
but no `coordinates` member, making the collection branch dead for
well-formed GeoJSON; otherwise dispatch on the type via `dispatchDepth`.
The collection recursion's result is computed here and passed in (being
pure, this is extensionally the branch of page.js:281-284: it is used
only when the type is `GeometryCollection`, and `geometries.length` on an
absent `geometries` throws, caught by the surrounding try with no points
pushed). -/
def pointsOfGeometry : GeoObj → List LPoint
  | GeoObj.mk ty co geoms _ =>
    match co with
    | none => []
    | some c =>
      if jvTruthy c = false then []
      else dispatchDepth ty c (pointsOfGeomListOpt geoms)
termination_by g => sizeOf g

/-- `geometry.geometries` access at page.js:282: absent → throw, caught
with no points pushed; present → the loop over the sub-geometries. -/
def pointsOfGeomListOpt : Option (List GeoObj) → List LPoint
  | none => []
  | some gs => pointsOfGeomList gs
termination_by geoms => sizeOf geoms

/-- The `for` loop over `geometry.geometries` (page.js:282-284):
`points.push(...extractPointsFromGeoJSON(geometries[i]))` per
sub-geometry. -/
def pointsOfGeomList : List GeoObj → List LPoint
  | [] => []
  | g :: gs => extractPointsFromGeoJSON (some g) ++ pointsOfGeomList gs
termination_by l => sizeOf l
decreasing_by
  all_goals simp_wf
  all_goals (have h := sizeOf_list_pos gs; omega)

end

def c8PointGeom : GeoObj :=
  GeoObj.mk (some "Point") (some (JVal.arr [JVal.num 3, JVal.num 4])) none none

def c8Collection : GeoObj :=
  GeoObj.mk (some "GeometryCollection") none (some [c8PointGeom]) none

/-- C8 (code bug): for a standard, well-formed `GeometryCollection` —
which has a `geometries` member but no `coordinates` member — the
extractor returns no points at all: the early return
`if (!geometry || !geometry.coordinates) return points;` (page.js:264)
fires before the `GeometryCollection` branch (page.js:281-284) is ever
reached, so the per-sub-geometry recursion the claim (and the code's own
explicit branch) describes is dead for well-formed collections.  The
contained `Point` sub-geometry alone would yield its point. -/
theorem geometryCollectionDeadBranch :
    extractPointsFromGeoJSON (some c8Collection) = []
  ∧ extractPointsFromGeoJSON (some c8PointGeom) = [⟨4, 3⟩] := by
  constructor
  · simp [c8Collection, extractPointsFromGeoJSON, pointsOfGeometry, truthyText]
  · simp [c8PointGeom, extractPointsFromGeoJSON, pointsOfGeometry, truthyText,
      jvTruthy, dispatchDepth, depthOfType, extractCoordinates, latLngOfPair]

def c9Coords : JVal :=
  JVal.arr [JVal.arr [JVal.num 0, JVal.num 1], JVal.arr [JVal.num 2]]

def c9BadLine : GeoObj :=
  GeoObj.mk (some "LineString") (some c9Coords) none none

/-- C9 counterexample: a `LineString` whose second coordinate pair is
malformed (a one-element array, so `L.LatLng(coords[1], coords[0])`
throws) makes the descent raise — yet the extractor returns the one point
accumulated before the throw, not the empty list the claim requires. -/
theorem extractorPartialAccumulation_counterexample :
    (extractCoordinates 1 c9Coords).2 = false
  ∧ extractPointsFromGeoJSON (some c9BadLine) = [⟨1, 0⟩]
  ∧ ([⟨1, 0⟩] : List LPoint) ≠ [] := by
  refine ⟨?_, ?_, by simp⟩
  · simp [c9Coords, extractCoordinates, stopConcat, latLngOfPair]
  · simp [c9BadLine, c9Coords, extractPointsFromGeoJSON, pointsOfGeometry,
      truthyText, jvTruthy, dispatchDepth, depthOfType, extractCoordinates,
      stopConcat, latLngOfPair]

/-- C9 amended: an unknown geometry type yields no points, and a
malformed structure whose descent raises is caught and yields exactly the
points accumulated before the raise (possibly non-empty) instead of
propagating the failure; within one coordinate array, elements after the
raising one contribute nothing. -/
theorem extractorCaughtPartial (ty : Option String) (co : Option JVal)
    (geoms : Option (List GeoObj)) (g2 : Option GeoObj) :
    (truthyText ty = true → ty ≠ some "Feature" → depthOfType ty = none →
       ty ≠ some "GeometryCollection" →
       extractPointsFromGeoJSON (some (GeoObj.mk ty co geoms g2)) = [])
  ∧ (∀ c d, co = some c → jvTruthy c = true → depthOfType ty = some d →
       truthyText ty = true → ty ≠ some "Feature" →
       (extractCoordinates d c).2 = false →
       extractPointsFromGeoJSON (some (GeoObj.mk ty co geoms g2))
         = (extractCoordinates d c).1)
  ∧ (∀ d x xs, (extractCoordinates d x).2 = false →
       stopConcat (extractCoordinates d) (x :: xs)
         = ((extractCoordinates d x).1, false)) := by
  refine ⟨?_, ?_, ?_⟩
  · intro hty hnf hdep hngc
    have hnf2 : (ty == some "Feature") = false := by simp [hnf]
    have hngc2 : (ty == some "GeometryCollection") = false := by simp [hngc]
    rw [extractPointsFromGeoJSON.eq_def]
    cases co with
    | none =>
      simp [pointsOfGeometry.eq_def, hty, hnf2]
    | some c =>
      by_cases hc : jvTruthy c
      · simp [pointsOfGeometry.eq_def, dispatchDepth, hty, hnf2, hc, hdep, hngc2]
      · simp [pointsOfGeometry.eq_def, hty, hnf2, hc]
  · intro c d hco hc hdep hty hnf herr
    have hnf2 : (ty == some "Feature") = false := by simp [hnf]
    subst hco
    rw [extractPointsFromGeoJSON.eq_def]
    simp [pointsOfGeometry.eq_def, dispatchDepth, hty, hnf2, hc, hdep]
  · intro d x xs herr
    rw [stopConcat]
    have hx : extractCoordinates d x = ((extractCoordinates d x).1, false) := by
      rw [← herr]
    rw [hx]

def c9OddShape : GeoObj :=
  GeoObj.mk (some "Oddity") (some (JVal.num 1)) none none

/-- Witness for the amended C9: the unknown type `"Oddity"` yields no
points, and the concrete malformed `LineString` returns exactly the
points accumulated before the raise. -/
theorem extractorCaughtPartial_witness :
    extractPointsFromGeoJSON (some c9OddShape) = []
  ∧ extractPointsFromGeoJSON (some c9BadLine) = (extractCoordinates 1 c9Coords).1
  ∧ stopConcat (extractCoordinates 0) [JVal.null, JVal.arr [JVal.num 5, JVal.num 6]]
      = ((extractCoordinates 0 JVal.null).1, false) :=
  ⟨(extractorCaughtPartial (some "Oddity") (some (JVal.num 1)) none none).1
     (by decide) (by decide) rfl (by decide),
   (extractorCaughtPartial (some "LineString") (some c9Coords) none none).2.1
     c9Coords 1 rfl (by simp [c9Coords, jvTruthy]) rfl (by decide) (by decide)
     (by simp [c9Coords, extractCoordinates, stopConcat, latLngOfPair]),
   (extractorCaughtPartial (some "LineString") (some c9Coords) none none).2.2
     0 JVal.null [JVal.arr [JVal.num 5, JVal.num 6]]
     (by simp [extractCoordinates, latLngOfPair])⟩

/-- Lookup in a JS object keyed by row id (`popups[id]`,
`geoJSONLayers[id]`, `geoJSONStyles[id]`). -/
def lookupRow {α : Type} : List (ℕ × α) → ℕ → Option α
  | [], _ => none
  | (k, v) :: rest, key => if k = key then some v else lookupRow rest key

/-- In-place mutation of the object stored under a key (restyling a
marker/layer object mutates it where it is indexed). -/
def setRow {α : Type} (l : List (ℕ × α)) (key : ℕ) (v : α) : List (ℕ × α) :=
  l.map (fun p => if p.1 = key then (key, v) else p)

theorem lookupRow_setRow {α : Type} (l : List (ℕ × α)) (k key : ℕ) (v : α) :
    lookupRow (setRow l k v) key
      = if key = k then (lookupRow l k).map (fun _ => v) else lookupRow l key := by
  induction l with
  | nil => by_cases h : key = k <;> simp [lookupRow, setRow, h]
  | cons p rest ih =>
    obtain ⟨pk, pv⟩ := p
    rw [setRow, List.map_cons]
    rw [setRow] at ih
    by_cases hpk : pk = k
    · rw [if_pos hpk]
      subst hpk
      by_cases hkey : key = pk
      · subst hkey
        simp [lookupRow]
      · have hk2 : ¬ pk = key := fun h => hkey h.symm
        simp [lookupRow, hkey, hk2, ih]
    · rw [if_neg hpk]
      by_cases hpkey : pk = key
      · subst hpkey
        have hkey : ¬ pk = k := hpk
        simp [lookupRow, hkey]
      · simp [lookupRow, hpk, hpkey, ih]

/-- The visual state of a point marker touched by selection: its icon
and its pane. -/
structure MarkerStyle where
  icon : IconT
  pane : String
deriving DecidableEq

def unselectedMarkerStyle : MarkerStyle := ⟨IconT.default, "otherMarkers"⟩

def selectedMarkerStyle : MarkerStyle := ⟨IconT.selected, "selectedMarker"⟩

/-- The externally visible restyle/sync operations of the selection
functions (page.js:945-1011): `setIcon`, pane reassignment, `setStyle`
with the resolved opacity/fillOpacity, `markers.refreshClusters()` and
`grist.setCursorPos`. -/
inductive Effect where
  | setIcon (rowId : ℕ) (icon : IconT)
  | setPane (rowId : ℕ) (pane : String)
  | setStyle (rowId : ℕ) (opacity fillOpacity : ℚ)
  | refreshClusters
  | setCursorPos (rowId : ℕ)
deriving DecidableEq

/-- Which feature a restyle operation touches (`refreshClusters` and
cursor sync touch no feature's icon/pane/style). -/
def effectTouches : Effect → Option ℕ
  | .setIcon rid _ => some rid
  | .setPane rid _ => some rid
  | .setStyle rid _ _ => some rid
  | .refreshClusters => none
  | .setCursorPos _ => none

/-- Marker-mode selection state: the module-level `selectedRowId` and the
`popups` index of marker objects. -/
structure MarkerMapState where
  selectedRowId : Option ℕ
  popups : List (ℕ × MarkerStyle)
deriving DecidableEq

/-- page.js:946-951: `popups[selectedRowId]` (undefined when
`selectedRowId` is null or has no marker), restyled to the default icon
and the `otherMarkers` pane when present. -/
def restylePrevMarker (st : MarkerMapState) : List (ℕ × MarkerStyle) × List Effect :=
  match st.selectedRowId with
  | none => (st.popups, [])
  | some prev =>
    match lookupRow st.popups prev with
    | none => (st.popups, [])
    | some _ =>
      (setRow st.popups prev unselectedMarkerStyle,
       [Effect.setIcon prev IconT.default, Effect.setPane prev "otherMarkers"])

/-- `selectMaker(id)` (page.js:945-969): restyle the previously selected
marker, return null if `popups[id]` is missing (selection state left as
it was), otherwise record the new selection, restyle the new marker to
the selected icon/pane, refresh clusters and sync the host cursor.
Returns the new state, the emitted effects, and the returned marker's
row id (`null` → `none`). -/
def selectMaker (st : MarkerMapState) (i : ℕ) :
    MarkerMapState × List Effect × Option ℕ :=
  let r := restylePrevMarker st
  match lookupRow r.1 i with
  | none => ({ st with popups := r.1 }, r.2, none)
  | some _ =>
    ({ selectedRowId := some i, popups := setRow r.1 i selectedMarkerStyle },
     r.2 ++ [Effect.setIcon i IconT.selected, Effect.setPane i "selectedMarker",
       Effect.refreshClusters, Effect.setCursorPos i],
     some i)

/-- A row's parsed Style column (page.js:704-711): only the opacity
fields matter to selection restyling; other path options are copied
verbatim by `Object.assign` and never change. -/
structure CustomStyle where
  opacity : Option ℚ
  fillOpacity : Option ℚ
deriving DecidableEq

/-- The visual state of a GeoJSON layer touched by selection: its
current path opacities and the icon of its point sub-layers (`none` when
the layer has no point sub-layers, in which case `eachLayer` finds no
`setIcon` and no icon is ever set). -/
structure GeoLayer where
  opacity : ℚ
  fillOpacity : ℚ
  icon : Option IconT
deriving DecidableEq

/-- GeoJSON-mode selection state: `selectedRowId`, the `geoJSONLayers`
index and the `geoJSONStyles` cache. -/
structure GeoMapState where
  selectedRowId : Option ℕ
  layers : List (ℕ × GeoLayer)
  styles : List (ℕ × CustomStyle)
deriving DecidableEq

/-- `Object.assign({opacity: base, fillOpacity: base}, style)` with
`style = geoJSONStyles[id] || {}` (page.js:975-979, 996-1000): a custom
opacity overrides the base. -/
def resolvedOpacity (base : ℚ) : Option CustomStyle → ℚ × ℚ
  | none => (base, base)
  | some cs => (cs.opacity.getD base, cs.fillOpacity.getD base)

def applyPathStyle (lay : GeoLayer) (o f : ℚ) : GeoLayer :=
  { lay with opacity := o, fillOpacity := f }

/-- `layer.eachLayer(l => { if (l.setIcon) l.setIcon(icon) })`: the icon
is set only on point sub-layers, when there are any. -/
def applyIcon (lay : GeoLayer) (i : IconT) : GeoLayer :=
  { lay with icon := lay.icon.map (fun _ => i) }

def iconEffects (lay : GeoLayer) (rid : ℕ) (i : IconT) : List Effect :=
  match lay.icon with
  | none => []
  | some _ => [Effect.setIcon rid i]

/-- page.js:972-985: restyle the previously selected GeoJSON layer to
the unselected appearance — base opacity 0.3 merged under its cached
custom style — and reset its point sub-layers to the default icon. -/
def restylePrevGeo (st : GeoMapState) : List (ℕ × GeoLayer) × List Effect :=
  match st.selectedRowId with
  | none => (st.layers, [])
  | some prev =>
    match lookupRow st.layers prev with
    | none => (st.layers, [])
    | some lay =>
      let ofo := resolvedOpacity (3 / 10) (lookupRow st.styles prev)
      (setRow st.layers prev (applyIcon (applyPathStyle lay ofo.1 ofo.2) IconT.default),
       Effect.setStyle prev ofo.1 ofo.2 :: iconEffects lay prev IconT.default)

/-- `selectGeoJSONFeature(id)` (page.js:971-1011): restyle the previous
layer, return null if `geoJSONLayers[id]` is missing, otherwise record
the new selection, restyle the new layer to base opacity 0.6 merged
under its custom style with the selected icon on point sub-layers, and
sync the host cursor. -/
def selectGeoJSONFeature (st : GeoMapState) (i : ℕ) :
    GeoMapState × List Effect × Option ℕ :=
  let r := restylePrevGeo st
  match lookupRow r.1 i with
  | none => ({ st with layers := r.1 }, r.2, none)
  | some lay =>
    let ofo := resolvedOpacity (6 / 10) (lookupRow st.styles i)
    ({ selectedRowId := some i,
       layers := setRow r.1 i (applyIcon (applyPathStyle lay ofo.1 ofo.2) IconT.selected),
       styles := st.styles },
     r.2 ++ (Effect.setStyle i ofo.1 ofo.2
       :: (iconEffects lay i IconT.selected ++ [Effect.setCursorPos i])),
     some i)

/-- `selectOnMap(rec)` (page.js:1041-1051): if `rec.id` is already the
selected row, do nothing; otherwise record it and rebuild the map via
`updateMap`.  Returns the new `selectedRowId` and whether `updateMap`
was invoked. -/
def selectOnMap (selectedRowId : Option ℕ) (recId : ℕ) : Option ℕ × Bool :=
  if selectedRowId == some recId then (selectedRowId, false)
  else (some recId, true)

theorem restylePrevMarker_some (st : MarkerMapState) (prev : ℕ) (w : MarkerStyle)
    (hsel : st.selectedRowId = some prev)
    (hw : lookupRow st.popups prev = some w) :
    restylePrevMarker st
      = (setRow st.popups prev unselectedMarkerStyle,
         [Effect.setIcon prev IconT.default, Effect.setPane prev "otherMarkers"]) := by
  simp [restylePrevMarker, hsel, hw]

theorem restylePrevMarker_lookup_isSome (st : MarkerMapState) (x : ℕ)
    (wx : MarkerStyle) (hx : lookupRow st.popups x = some wx) :
    ∃ w2, lookupRow (restylePrevMarker st).1 x = some w2 := by
  match hsel : st.selectedRowId with
  | none =>
    simp only [restylePrevMarker, hsel]
    exact ⟨wx, hx⟩
  | some prev =>
    match hlp : lookupRow st.popups prev with
    | none =>
      simp only [restylePrevMarker, hsel, hlp]
      exact ⟨wx, hx⟩
    | some w0 =>
      simp only [restylePrevMarker, hsel, hlp]
      rw [lookupRow_setRow]
      by_cases hxp : x = prev
      · subst hxp
        rw [if_pos rfl, hx]
        exact ⟨unselectedMarkerStyle, rfl⟩
      · rw [if_neg hxp]
        exact ⟨wx, hx⟩

theorem selectMaker_found (st : MarkerMapState) (i : ℕ) (w : MarkerStyle)
    (hw : lookupRow (restylePrevMarker st).1 i = some w) :
    selectMaker st i
      = ({ selectedRowId := some i,
           popups := setRow (restylePrevMarker st).1 i selectedMarkerStyle },
         (restylePrevMarker st).2
           ++ [Effect.setIcon i IconT.selected, Effect.setPane i "selectedMarker",
               Effect.refreshClusters, Effect.setCursorPos i],
         some i) := by
  simp [selectMaker, hw]

def c6State : MarkerMapState := ⟨some 1, [(1, selectedMarkerStyle)]⟩

/-- C6 counterexample: click-driven selection of the already-selected row
is not free of restyle calls.  `selectMaker` has no already-selected
guard (only `selectOnMap` has one): with row 1 selected, `selectMaker(1)`
sets row 1's icon and pane back to default and then to selected again —
four restyle calls where the claim requires none. -/
theorem selectSameIdNoRestyle_counterexample :
    (selectMaker c6State 1).2.1
      = [Effect.setIcon 1 IconT.default, Effect.setPane 1 "otherMarkers",
         Effect.setIcon 1 IconT.selected, Effect.setPane 1 "selectedMarker",
         Effect.refreshClusters, Effect.setCursorPos 1]
  ∧ ¬((selectMaker c6State 1).2.1 = []) := by
  refine ⟨by decide, by decide⟩

/-- C6 amended: host-driven selection (`selectOnMap`) of the already
selected row is a no-op — no restyle, no rebuild, state unchanged.
Click-driven selection (`selectMaker`) of the already selected row,
however, does emit restyle calls: it restyles that one feature to the
default appearance and back to the selected appearance (touching no
other feature) and leaves the selection state and the feature's final
appearance unchanged. -/
theorem selectAlreadySelected (st : MarkerMapState) (i : ℕ) (w : MarkerStyle)
    (hsel : st.selectedRowId = some i)
    (hmem : lookupRow st.popups i = some w) :
    selectOnMap st.selectedRowId i = (st.selectedRowId, false)
  ∧ (selectMaker st i).2.2 = some i
  ∧ (selectMaker st i).1.selectedRowId = some i
  ∧ lookupRow (selectMaker st i).1.popups i = some selectedMarkerStyle
  ∧ (selectMaker st i).2.1
      = [Effect.setIcon i IconT.default, Effect.setPane i "otherMarkers",
         Effect.setIcon i IconT.selected, Effect.setPane i "selectedMarker",
         Effect.refreshClusters, Effect.setCursorPos i]
  ∧ (∀ e ∈ (selectMaker st i).2.1, ∀ rid, effectTouches e = some rid → rid = i)
  ∧ (∀ k, k ≠ i → lookupRow (selectMaker st i).1.popups k = lookupRow st.popups k) := by
  have hres := restylePrevMarker_some st i w hsel hmem
  have hlook : lookupRow (restylePrevMarker st).1 i = some unselectedMarkerStyle := by
    rw [hres, lookupRow_setRow, if_pos rfl, hmem]
    rfl
  have hcall := selectMaker_found st i unselectedMarkerStyle hlook
  refine ⟨by rw [hsel]; simp [selectOnMap], by rw [hcall], by rw [hcall], ?_, ?_, ?_, ?_⟩
  · rw [hcall]
    show lookupRow (setRow (restylePrevMarker st).1 i selectedMarkerStyle) i
      = some selectedMarkerStyle
    rw [lookupRow_setRow, if_pos rfl, hlook]
    rfl
  · rw [hcall, hres]
    rfl
  · intro e he rid hrid
    rw [hcall, hres] at he
    simp only [List.mem_append, List.mem_cons, List.not_mem_nil, or_false] at he
    rcases he with (rfl | rfl) | rfl | rfl | rfl | rfl <;>
      simp [effectTouches] at hrid <;> omega
  · intro k hk
    rw [hcall]
    show lookupRow (setRow (restylePrevMarker st).1 i selectedMarkerStyle) k
      = lookupRow st.popups k
    rw [lookupRow_setRow, if_neg hk, hres]
    show lookupRow (setRow st.popups i unselectedMarkerStyle) k = lookupRow st.popups k
    rw [lookupRow_setRow, if_neg hk]

/-- Witness for the amended C6 at the concrete already-selected state. -/
theorem selectAlreadySelected_witness :
    selectOnMap c6State.selectedRowId 1 = (c6State.selectedRowId, false)
  ∧ (selectMaker c6State 1).1.selectedRowId = some 1
  ∧ lookupRow (selectMaker c6State 1).1.popups 1 = some selectedMarkerStyle :=
  ⟨(selectAlreadySelected c6State 1 selectedMarkerStyle rfl (by decide)).1,
   (selectAlreadySelected c6State 1 selectedMarkerStyle rfl (by decide)).2.2.1,
   (selectAlreadySelected c6State 1 selectedMarkerStyle rfl (by decide)).2.2.2.1⟩

theorem restylePrevGeo_some (st : GeoMapState) (prev : ℕ) (lay : GeoLayer)
    (hsel : st.selectedRowId = some prev)
    (hlay : lookupRow st.layers prev = some lay) :
    restylePrevGeo st
      = (setRow st.layers prev
           (applyIcon (applyPathStyle lay
             (resolvedOpacity (3 / 10) (lookupRow st.styles prev)).1
             (resolvedOpacity (3 / 10) (lookupRow st.styles prev)).2) IconT.default),
         Effect.setStyle prev
             (resolvedOpacity (3 / 10) (lookupRow st.styles prev)).1
             (resolvedOpacity (3 / 10) (lookupRow st.styles prev)).2
           :: iconEffects lay prev IconT.default) := by
  simp [restylePrevGeo, hsel, hlay]

theorem restylePrevGeo_lookup_isSome (st : GeoMapState) (x : ℕ)
    (wx : GeoLayer) (hx : lookupRow st.layers x = some wx) :
    ∃ w2, lookupRow (restylePrevGeo st).1 x = some w2 := by
  match hsel : st.selectedRowId with
  | none =>
    simp only [restylePrevGeo, hsel]
    exact ⟨wx, hx⟩
  | some prev =>
    match hlp : lookupRow st.layers prev with
    | none =>
      simp only [restylePrevGeo, hsel, hlp]
      exact ⟨wx, hx⟩
    | some w0 =>
      simp only [restylePrevGeo, hsel, hlp]
      rw [lookupRow_setRow]
      by_cases hxp : x = prev
      · subst hxp
        rw [if_pos rfl, hx]
        exact ⟨_, rfl⟩
      · rw [if_neg hxp]
        exact ⟨wx, hx⟩

theorem selectGeoJSONFeature_found (st : GeoMapState) (i : ℕ) (lay : GeoLayer)
    (hlay : lookupRow (restylePrevGeo st).1 i = some lay) :
    selectGeoJSONFeature st i
      = ({ selectedRowId := some i,
           layers := setRow (restylePrevGeo st).1 i
             (applyIcon (applyPathStyle lay
               (resolvedOpacity (6 / 10) (lookupRow st.styles i)).1
               (resolvedOpacity (6 / 10) (lookupRow st.styles i)).2) IconT.selected),
           styles := st.styles },
         (restylePrevGeo st).2
           ++ (Effect.setStyle i (resolvedOpacity (6 / 10) (lookupRow st.styles i)).1
                 (resolvedOpacity (6 / 10) (lookupRow st.styles i)).2
               :: (iconEffects lay i IconT.selected ++ [Effect.setCursorPos i])),
         some i) := by
  simp [selectGeoJSONFeature, hlay]

theorem iconEffects_mem (lay : GeoLayer) (rid : ℕ) (ic : IconT) (e : Effect)
    (he : e ∈ iconEffects lay rid ic) : e = Effect.setIcon rid ic := by
  cases hic : lay.icon with
  | none => rw [iconEffects, hic] at he; cases he
  | some _ => rw [iconEffects, hic] at he; simp at he; exact he

/-- C7: for two distinct row ids `a` and `b` that both have Features,
`select(a)` then `select(b)` makes the second call restyle exactly
feature `a` back to the unselected appearance and feature `b` to the
selected appearance, leaving the icon, pane and style of every other
feature unchanged — in marker mode (`selectMaker`: the second call's
effects are precisely the four restyles of `a` and `b`, plus the cluster
refresh and cursor sync which touch no feature) and in GeoJSON mode
(`selectGeoJSONFeature`: every feature-touching effect of the second call
targets `a` or `b`, the unselect restyle of `a` and the select restyle of
`b` are both issued, and all other layers are untouched). -/
theorem selectSwitchRestylesExactly (st : MarkerMapState) (gst : GeoMapState)
    (a b : ℕ) (wa wb : MarkerStyle) (ga gb : GeoLayer) (hab : a ≠ b)
    (ha : lookupRow st.popups a = some wa) (hb : lookupRow st.popups b = some wb)
    (hga : lookupRow gst.layers a = some ga)
    (hgb : lookupRow gst.layers b = some gb) :
    (selectMaker st a).1.selectedRowId = some a
  ∧ (selectMaker (selectMaker st a).1 b).2.1
      = [Effect.setIcon a IconT.default, Effect.setPane a "otherMarkers",
         Effect.setIcon b IconT.selected, Effect.setPane b "selectedMarker",
         Effect.refreshClusters, Effect.setCursorPos b]
  ∧ (selectMaker (selectMaker st a).1 b).2.2 = some b
  ∧ (selectMaker (selectMaker st a).1 b).1.selectedRowId = some b
  ∧ lookupRow (selectMaker (selectMaker st a).1 b).1.popups a
      = some unselectedMarkerStyle
  ∧ lookupRow (selectMaker (selectMaker st a).1 b).1.popups b
      = some selectedMarkerStyle
  ∧ (∀ k, k ≠ a → k ≠ b →
      lookupRow (selectMaker (selectMaker st a).1 b).1.popups k
        = lookupRow (selectMaker st a).1.popups k)
  ∧ (selectGeoJSONFeature gst a).1.selectedRowId = some a
  ∧ (selectGeoJSONFeature (selectGeoJSONFeature gst a).1 b).2.2 = some b
  ∧ (selectGeoJSONFeature (selectGeoJSONFeature gst a).1 b).1.selectedRowId = some b
  ∧ (∀ e ∈ (selectGeoJSONFeature (selectGeoJSONFeature gst a).1 b).2.1,
       ∀ rid, effectTouches e = some rid → rid = a ∨ rid = b)
  ∧ Effect.setStyle a (resolvedOpacity (3 / 10) (lookupRow gst.styles a)).1
      (resolvedOpacity (3 / 10) (lookupRow gst.styles a)).2
      ∈ (selectGeoJSONFeature (selectGeoJSONFeature gst a).1 b).2.1
  ∧ Effect.setStyle b (resolvedOpacity (6 / 10) (lookupRow gst.styles b)).1
      (resolvedOpacity (6 / 10) (lookupRow gst.styles b)).2
      ∈ (selectGeoJSONFeature (selectGeoJSONFeature gst a).1 b).2.1
  ∧ (∀ k, k ≠ a → k ≠ b →
      lookupRow (selectGeoJSONFeature (selectGeoJSONFeature gst a).1 b).1.layers k
        = lookupRow (selectGeoJSONFeature gst a).1.layers k) := by
  have hba : b ≠ a := fun h => hab h.symm
  -- marker mode, first call
  obtain ⟨w1, hw1⟩ := restylePrevMarker_lookup_isSome st a wa ha
  have hcall1 := selectMaker_found st a w1 hw1
  have hst1 : (selectMaker st a).1
      = { selectedRowId := some a,
          popups := setRow (restylePrevMarker st).1 a selectedMarkerStyle } := by
    rw [hcall1]
  have hpa : lookupRow (setRow (restylePrevMarker st).1 a selectedMarkerStyle) a
      = some selectedMarkerStyle := by
    rw [lookupRow_setRow, if_pos rfl, hw1]
    rfl
  obtain ⟨w2, hw2⟩ := restylePrevMarker_lookup_isSome st b wb hb
  have hpb : lookupRow (setRow (restylePrevMarker st).1 a selectedMarkerStyle) b
      = some w2 := by
    rw [lookupRow_setRow, if_neg hba, hw2]
  -- marker mode, second call
  have hres2 := restylePrevMarker_some
    { selectedRowId := some a,
      popups := setRow (restylePrevMarker st).1 a selectedMarkerStyle }
    a selectedMarkerStyle rfl hpa
  have hlookb2 : lookupRow (restylePrevMarker
      { selectedRowId := some a,
        popups := setRow (restylePrevMarker st).1 a selectedMarkerStyle }).1 b
      = some w2 := by
    rw [hres2]
    show lookupRow (setRow (setRow (restylePrevMarker st).1 a selectedMarkerStyle)
      a unselectedMarkerStyle) b = some w2
    rw [lookupRow_setRow, if_neg hba, hpb]
  have hcall2 := selectMaker_found
    { selectedRowId := some a,
      popups := setRow (restylePrevMarker st).1 a selectedMarkerStyle }
    b w2 hlookb2
  -- geojson mode, first call
  obtain ⟨g1, hg1⟩ := restylePrevGeo_lookup_isSome gst a ga hga
  have hcallg1 := selectGeoJSONFeature_found gst a g1 hg1
  have hgst1 : (selectGeoJSONFeature gst a).1
      = { selectedRowId := some a,
          layers := setRow (restylePrevGeo gst).1 a
            (applyIcon (applyPathStyle g1
              (resolvedOpacity (6 / 10) (lookupRow gst.styles a)).1
              (resolvedOpacity (6 / 10) (lookupRow gst.styles a)).2) IconT.selected),
          styles := gst.styles } := by
    rw [hcallg1]
  have hgpa : lookupRow (setRow (restylePrevGeo gst).1 a
      (applyIcon (applyPathStyle g1
        (resolvedOpacity (6 / 10) (lookupRow gst.styles a)).1
        (resolvedOpacity (6 / 10) (lookupRow gst.styles a)).2) IconT.selected)) a
      = some (applyIcon (applyPathStyle g1
          (resolvedOpacity (6 / 10) (lookupRow gst.styles a)).1
          (resolvedOpacity (6 / 10) (lookupRow gst.styles a)).2) IconT.selected) := by
    rw [lookupRow_setRow, if_pos rfl, hg1]
    rfl
  obtain ⟨g2, hg2⟩ := restylePrevGeo_lookup_isSome gst b gb hgb
  have hgpb : lookupRow (setRow (restylePrevGeo gst).1 a
      (applyIcon (applyPathStyle g1
        (resolvedOpacity (6 / 10) (lookupRow gst.styles a)).1
        (resolvedOpacity (6 / 10) (lookupRow gst.styles a)).2) IconT.selected)) b
      = some g2 := by
    rw [lookupRow_setRow, if_neg hba, hg2]
  -- geojson mode, second call
  have hresg2 := restylePrevGeo_some
    { selectedRowId := some a,
      layers := setRow (restylePrevGeo gst).1 a
        (applyIcon (applyPathStyle g1
          (resolvedOpacity (6 / 10) (lookupRow gst.styles a)).1
          (resolvedOpacity (6 / 10) (lookupRow gst.styles a)).2) IconT.selected),
      styles := gst.styles }
    a (applyIcon (applyPathStyle g1
        (resolvedOpacity (6 / 10) (lookupRow gst.styles a)).1
        (resolvedOpacity (6 / 10) (lookupRow gst.styles a)).2) IconT.selected)
    rfl hgpa
  have hlookgb2 : lookupRow (restylePrevGeo
      { selectedRowId := some a,
        layers := setRow (restylePrevGeo gst).1 a
          (applyIcon (applyPathStyle g1
            (resolvedOpacity (6 / 10) (lookupRow gst.styles a)).1
            (resolvedOpacity (6 / 10) (lookupRow gst.styles a)).2) IconT.selected),
        styles := gst.styles }).1 b = some g2 := by
    rw [hresg2]
    rw [lookupRow_setRow, if_neg hba]
    exact hgpb
  have hcallg2 := selectGeoJSONFeature_found
    { selectedRowId := some a,
      layers := setRow (restylePrevGeo gst).1 a
        (applyIcon (applyPathStyle g1
          (resolvedOpacity (6 / 10) (lookupRow gst.styles a)).1
          (resolvedOpacity (6 / 10) (lookupRow gst.styles a)).2) IconT.selected),
      styles := gst.styles }
    b g2 hlookgb2
  have hfx : (selectGeoJSONFeature (selectGeoJSONFeature gst a).1 b).2.1
      = (Effect.setStyle a (resolvedOpacity (3 / 10) (lookupRow gst.styles a)).1
           (resolvedOpacity (3 / 10) (lookupRow gst.styles a)).2
         :: iconEffects (applyIcon (applyPathStyle g1
              (resolvedOpacity (6 / 10) (lookupRow gst.styles a)).1
              (resolvedOpacity (6 / 10) (lookupRow gst.styles a)).2) IconT.selected)
            a IconT.default)
        ++ (Effect.setStyle b (resolvedOpacity (6 / 10) (lookupRow gst.styles b)).1
              (resolvedOpacity (6 / 10) (lookupRow gst.styles b)).2
            :: (iconEffects g2 b IconT.selected ++ [Effect.setCursorPos b])) := by
    rw [hgst1, hcallg2, hresg2]
  refine ⟨by rw [hcall1], ?_, ?_, ?_, ?_, ?_, ?_, by rw [hcallg1], ?_, ?_, ?_, ?_, ?_, ?_⟩
  · rw [hst1, hcall2, hres2]
    rfl
  · rw [hst1, hcall2]
  · rw [hst1, hcall2]
  · rw [hst1, hcall2]
    show lookupRow (setRow (restylePrevMarker
      { selectedRowId := some a,
        popups := setRow (restylePrevMarker st).1 a selectedMarkerStyle }).1
      b selectedMarkerStyle) a = some unselectedMarkerStyle
    rw [lookupRow_setRow, if_neg hab, hres2]
    show lookupRow (setRow (setRow (restylePrevMarker st).1 a selectedMarkerStyle)
      a unselectedMarkerStyle) a = some unselectedMarkerStyle
    rw [lookupRow_setRow, if_pos rfl, hpa]
    rfl
  · rw [hst1, hcall2]
    show lookupRow (setRow (restylePrevMarker
      { selectedRowId := some a,
        popups := setRow (restylePrevMarker st).1 a selectedMarkerStyle }).1
      b selectedMarkerStyle) b = some selectedMarkerStyle
    rw [lookupRow_setRow, if_pos rfl, hlookb2]
    rfl
  · intro k hka hkb
    rw [hst1, hcall2]
    show lookupRow (setRow (restylePrevMarker
      { selectedRowId := some a,
        popups := setRow (restylePrevMarker st).1 a selectedMarkerStyle }).1
      b selectedMarkerStyle) k
      = lookupRow (setRow (restylePrevMarker st).1 a selectedMarkerStyle) k
    rw [lookupRow_setRow, if_neg hkb, hres2]
    show lookupRow (setRow (setRow (restylePrevMarker st).1 a selectedMarkerStyle)
      a unselectedMarkerStyle) k
      = lookupRow (setRow (restylePrevMarker st).1 a selectedMarkerStyle) k
    rw [lookupRow_setRow, if_neg hka]
  · rw [hgst1, hcallg2]
  · rw [hgst1, hcallg2]
  · intro e he rid hrid
    rw [hfx] at he
    rcases List.mem_append.mp he with h1 | h2
    · rcases List.mem_cons.mp h1 with rfl | h1b
      · rw [effectTouches] at hrid
        exact Or.inl (Option.some.inj hrid).symm
      · have heq := iconEffects_mem _ a IconT.default e h1b
        subst heq
        rw [effectTouches] at hrid
        exact Or.inl (Option.some.inj hrid).symm
    · rcases List.mem_cons.mp h2 with rfl | h2b
      · rw [effectTouches] at hrid
        exact Or.inr (Option.some.inj hrid).symm
      · rcases List.mem_append.mp h2b with h3 | h4
        · have heq := iconEffects_mem _ b IconT.selected e h3
          subst heq
          rw [effectTouches] at hrid
          exact Or.inr (Option.some.inj hrid).symm
        · have heq := List.mem_singleton.mp h4
          subst heq
          rw [effectTouches] at hrid
          cases hrid
  · rw [hfx]
    exact List.mem_append_left _ (List.mem_cons_self _ _)
  · rw [hfx]
    exact List.mem_append_right _ (List.mem_cons_self _ _)
  · intro k hka hkb
    rw [hgst1, hcallg2]
    show lookupRow (setRow (restylePrevGeo _).1 b _) k = _
    rw [lookupRow_setRow, if_neg hkb, hresg2]
    show lookupRow (setRow (setRow (restylePrevGeo gst).1 a _) a _) k = _
    rw [lookupRow_setRow, if_neg hka]

def c7MarkerState : MarkerMapState :=
  ⟨none, [(1, unselectedMarkerStyle), (2, unselectedMarkerStyle),
          (3, unselectedMarkerStyle)]⟩

def c7GeoState : GeoMapState :=
  ⟨none, [(1, ⟨3 / 10, 3 / 10, some IconT.default⟩), (2, ⟨3 / 10, 3 / 10, none⟩),
          (3, ⟨3 / 10, 3 / 10, some IconT.default⟩)], []⟩

/-- Witness for C7 at a concrete three-feature map: selecting 1 then 2
restyles exactly those two features and leaves feature 3 alone. -/
theorem selectSwitchRestylesExactly_witness :
    (selectMaker (selectMaker c7MarkerState 1).1 2).2.1
      = [Effect.setIcon 1 IconT.default, Effect.setPane 1 "otherMarkers",
         Effect.setIcon 2 IconT.selected, Effect.setPane 2 "selectedMarker",
         Effect.refreshClusters, Effect.setCursorPos 2]
  ∧ (selectGeoJSONFeature (selectGeoJSONFeature c7GeoState 1).1 2).2.2 = some 2
  ∧ (∀ k, k ≠ 1 → k ≠ 2 →
      lookupRow (selectMaker (selectMaker c7MarkerState 1).1 2).1.popups k
        = lookupRow (selectMaker c7MarkerState 1).1.popups k) :=
  ⟨(selectSwitchRestylesExactly c7MarkerState c7GeoState 1 2 unselectedMarkerStyle
      unselectedMarkerStyle ⟨3 / 10, 3 / 10, some IconT.default⟩
      ⟨3 / 10, 3 / 10, none⟩ (by decide) rfl rfl rfl rfl).2.1,
   (selectSwitchRestylesExactly c7MarkerState c7GeoState 1 2 unselectedMarkerStyle
      unselectedMarkerStyle ⟨3 / 10, 3 / 10, some IconT.default⟩
      ⟨3 / 10, 3 / 10, none⟩ (by decide) rfl rfl rfl rfl).2.2.2.2.2.2.2.2.1,
   (selectSwitchRestylesExactly c7MarkerState c7GeoState 1 2 unselectedMarkerStyle
      unselectedMarkerStyle ⟨3 / 10, 3 / 10, some IconT.default⟩
      ⟨3 / 10, 3 / 10, none⟩ (by decide) rfl rfl rfl rfl).2.2.2.2.2.2.1⟩

/-- C10: a selection attempt for a row id with no Feature returns null
and leaves the stored selected row id at its previous value — but it has
already restyled the previously selected feature to the unselected
appearance, so the stored selection id now points at a visually
unselected feature.  Holds in marker mode (`selectMaker`) and in GeoJSON
mode (`selectGeoJSONFeature`). -/
theorem selectMissingFeature (st : MarkerMapState) (gst : GeoMapState)
    (s i : ℕ) (w : MarkerStyle) (gw : GeoLayer)
    (hsel : st.selectedRowId = some s)
    (hw : lookupRow st.popups s = some w)
    (hmiss : lookupRow st.popups i = none)
    (hgsel : gst.selectedRowId = some s)
    (hgw : lookupRow gst.layers s = some gw)
    (hgmiss : lookupRow gst.layers i = none) :
    (selectMaker st i).2.2 = none
  ∧ (selectMaker st i).1.selectedRowId = some s
  ∧ lookupRow (selectMaker st i).1.popups s = some unselectedMarkerStyle
  ∧ (selectMaker st i).2.1
      = [Effect.setIcon s IconT.default, Effect.setPane s "otherMarkers"]
  ∧ (selectGeoJSONFeature gst i).2.2 = none
  ∧ (selectGeoJSONFeature gst i).1.selectedRowId = some s
  ∧ lookupRow (selectGeoJSONFeature gst i).1.layers s
      = some (applyIcon (applyPathStyle gw
          (resolvedOpacity (3 / 10) (lookupRow gst.styles s)).1
          (resolvedOpacity (3 / 10) (lookupRow gst.styles s)).2) IconT.default) := by
  have hsi : s ≠ i := by
    intro h
    rw [h, hmiss] at hw
    cases hw
  have hres := restylePrevMarker_some st s w hsel hw
  have hmiss2 : lookupRow (restylePrevMarker st).1 i = none := by
    rw [hres]
    show lookupRow (setRow st.popups s unselectedMarkerStyle) i = none
    rw [lookupRow_setRow, if_neg (fun h => hsi h.symm), hmiss]
  have hcall : selectMaker st i
      = ({ st with popups := (restylePrevMarker st).1 },
         (restylePrevMarker st).2, none) := by
    simp [selectMaker, hmiss2]
  have hgres := restylePrevGeo_some gst s gw hgsel hgw
  have hgmiss2 : lookupRow (restylePrevGeo gst).1 i = none := by
    rw [hgres]
    show lookupRow (setRow gst.layers s _) i = none
    rw [lookupRow_setRow, if_neg (fun h => hsi h.symm), hgmiss]
  have hgcall : selectGeoJSONFeature gst i
      = ({ gst with layers := (restylePrevGeo gst).1 },
         (restylePrevGeo gst).2, none) := by
    simp [selectGeoJSONFeature, hgmiss2]
  refine ⟨by rw [hcall], by rw [hcall]; exact hsel, ?_, by rw [hcall, hres], ?_, ?_, ?_⟩
  · rw [hcall]
    show lookupRow (restylePrevMarker st).1 s = some unselectedMarkerStyle
    rw [hres]
    show lookupRow (setRow st.popups s unselectedMarkerStyle) s = _
    rw [lookupRow_setRow, if_pos rfl, hw]
    rfl
  · rw [hgcall]
  · rw [hgcall]
    exact hgsel
  · rw [hgcall]
    show lookupRow (restylePrevGeo gst).1 s = _
    rw [hgres]
    show lookupRow (setRow gst.layers s _) s = _
    rw [lookupRow_setRow, if_pos rfl, hgw]
    rfl

def c10MarkerState : MarkerMapState := ⟨some 4, [(4, selectedMarkerStyle)]⟩

def c10GeoState : GeoMapState :=
  ⟨some 4, [(4, ⟨6 / 10, 6 / 10, some IconT.selected⟩)], []⟩

/-- Witness for C10: selecting the missing row 9 returns null, keeps the
stored selection at row 4, and leaves row 4 visually unselected. -/
theorem selectMissingFeature_witness :
    (selectMaker c10MarkerState 9).2.2 = none
  ∧ (selectMaker c10MarkerState 9).1.selectedRowId = some 4
  ∧ lookupRow (selectMaker c10MarkerState 9).1.popups 4 = some unselectedMarkerStyle
  ∧ (selectGeoJSONFeature c10GeoState 9).2.2 = none
  ∧ (selectGeoJSONFeature c10GeoState 9).1.selectedRowId = some 4 :=
  ⟨(selectMissingFeature c10MarkerState c10GeoState 4 9 selectedMarkerStyle
      ⟨6 / 10, 6 / 10, some IconT.selected⟩ rfl rfl rfl rfl rfl rfl).1,
   (selectMissingFeature c10MarkerState c10GeoState 4 9 selectedMarkerStyle
      ⟨6 / 10, 6 / 10, some IconT.selected⟩ rfl rfl rfl rfl rfl rfl).2.1,
   (selectMissingFeature c10MarkerState c10GeoState 4 9 selectedMarkerStyle
      ⟨6 / 10, 6 / 10, some IconT.selected⟩ rfl rfl rfl rfl rfl rfl).2.2.1,
   (selectMissingFeature c10MarkerState c10GeoState 4 9 selectedMarkerStyle
      ⟨6 / 10, 6 / 10, some IconT.selected⟩ rfl rfl rfl rfl rfl rfl).2.2.2.2.1,
   (selectMissingFeature c10MarkerState c10GeoState 4 9 selectedMarkerStyle
      ⟨6 / 10, 6 / 10, some IconT.selected⟩ rfl rfl rfl rfl rfl rfl).2.2.2.2.2.1⟩
